import Mathlib

/-!
Shallow embedding of `app.py`, a Flask news endpoint that fetches an RSS
feed per category, extracts up to 15 items, and tags each article via a
generative-language service.

External effects are modelled by explicit oracle parameters:
* `GEMINI_API_KEY : Option String` — the credential read by `os.getenv`
  (`none` when unset; Python truthiness of the string is modelled by
  `pyFalsyStr`).
* `FeedOutcome` — the combined outcome of `requests.get` +
  `raise_for_status` + `ET.fromstring` for the one URL fetched: a network
  error (`requests.exceptions.RequestException` detail), a parse error
  (`ET.ParseError` detail), or the parsed list of `item` elements.
* `gen : Nat → GenOutcome` — for each article index, the outcome of the
  `client.models.generate_content` call: an exception detail, or the raw
  response text.

Fallible Python code is embedded into `Option`: a `none` result means an
uncaught exception propagates out of the function.  An `Effects` record
counts the outbound calls actually issued (feed fetch attempts, generative
service calls), so "no network call is attempted" is a provable statement.
Client/config construction in the SDK performs no I/O and is modelled as
pure.
-/

/-- Python truthiness of an optional string: `not x` is true exactly when
`x` is `None` or the empty string. -/
def pyFalsyStr : Option String → Bool
  | none => true
  | some s => s == ""

/-- Python `str()` / f-string rendering of an `Optional[str]` value
(`None` renders as the literal `"None"`). -/
def pyStrOpt : Option String → String
  | none => "None"
  | some s => s

/-- The characters removed by Python's default `str.strip()` (ASCII
whitespace; the Unicode space classes Python also strips do not occur in
any string this program manipulates). -/
def pyIsSpace (c : Char) : Bool :=
  c == ' ' || c == '\t' || c == '\n' || c == '\r' || c == '\x0b' || c == '\x0c'

/-- Python `str.strip()`: drop leading and trailing whitespace. -/
def pyStrip (s : String) : String :=
  String.mk (((s.data.dropWhile pyIsSpace).reverse.dropWhile pyIsSpace).reverse)

/-- Helper for `pySplitComma`: accumulates the current piece (reversed). -/
def pySplitCommaAux : List Char → List Char → List String
  | [], acc => [String.mk acc.reverse]
  | c :: rest, acc =>
    if c = ',' then String.mk acc.reverse :: pySplitCommaAux rest []
    else pySplitCommaAux rest (c :: acc)

/-- Python `str.split(',')`: split on every comma, keeping empty pieces
(so `"a,,b"` gives `["a", "", "b"]` and `""` gives `[""]`). -/
def pySplitComma (s : String) : List String :=
  pySplitCommaAux s.data []

/-- `app.py` line 48: `[t.strip() for t in response.text.split(',') if t.strip()]`. -/
def parseTags (raw : String) : List String :=
  (pySplitComma raw).filterMap (fun t =>
    let s := pyStrip t
    if s = "" then none else some s)

/-- One entry of the `messages` list inside a request prompt. -/
structure Message where
  author : String
  content : String
  deriving DecidableEq

/-- The request-prompt dictionary built by `generate_request_prompt`
(`app.py` lines 59–70). -/
structure RequestPrompt where
  context : String
  maxOutputTokens : Nat
  messages : List Message
  temperature : Rat
  topP : Rat
  deriving DecidableEq

/-- Outcome of one `client.models.generate_content` call: either an
exception (network failure, malformed/absent response text, quota, ...)
with its message, or a successful raw text response. -/
inductive GenOutcome where
  | error (detail : String)
  | text (raw : String)
  deriving DecidableEq

/-- `app.py` lines 20–53, function `chat`.  Returns `none` when an
uncaught exception escapes (only possible when `messages` is empty, since
`request_prompt['messages'][0]` is evaluated outside the `try`); otherwise
`some (tags, attempted)` where `attempted` records whether the
generate-content call was issued. -/
def chat (GEMINI_API_KEY : Option String) (request_prompt : RequestPrompt)
    (outcome : GenOutcome) : Option (List String × Bool) :=
  if pyFalsyStr GEMINI_API_KEY then
    some ([], false)
  else
    match request_prompt.messages.head? with
    | none => none
    | some _content_message =>
      match outcome with
      | GenOutcome.error _ => some ([], true)
      | GenOutcome.text raw => some (parseTags raw, true)

/-- `app.py` lines 55–71, function `generate_request_prompt`. -/
def generate_request_prompt (prompt content : String) (tmp p : Rat) : RequestPrompt :=
  { context := prompt
    maxOutputTokens := 1024
    messages := [{ author := "user", content := content }]
    temperature := tmp
    topP := p }

/-- `app.py` lines 75–80: the static category → feed-URL registry
(Python dict with distinct keys; lookup is exact string match). -/
def RSS_FEEDS : List (String × String) := [
  ("テクノロジー", "https://news.google.com/rss/headlines/section/topic/TECHNOLOGY?hl=ja&gl=JP&ceid=JP:ja"),
  ("経済", "https://news.google.com/rss/headlines/section/topic/BUSINESS?hl=ja&gl=JP&ceid=JP:ja"),
  ("スポーツ", "https://news.google.com/rss/headlines/section/topic/SPORTS?hl=ja&gl=JP&ceid=JP:ja"),
  ("国際", "https://news.google.com/rss/headlines/section/topic/WORLD?hl=ja&gl=JP&ceid=JP:ja")]

/-- One `item` element of the parsed feed, as seen through
`item.find('title')` / `.find('link')` / `.find('description')`: the outer
`Option` is element presence (`find` returning `None` when absent), the
inner `Option String` is the element's `.text` (which is Python `None` for
an element with no text). -/
structure RssItem where
  title : Option (Option String)
  link : Option (Option String)
  description : Option (Option String)
  deriving DecidableEq

/-- `app.py` line 113: `item.find('title').text if item.find('title') is
not None else "No Title"`. -/
def resolvedTitle (item : RssItem) : Option String :=
  match item.title with
  | some el => el
  | none => some "No Title"

/-- `app.py` line 114: `item.find('link').text if item.find('link') is
not None else "#"`. -/
def resolvedLink (item : RssItem) : Option String :=
  match item.link with
  | some el => el
  | none => some "#"

/-- `app.py` lines 116–117: `description_element.text if
description_element is not None else title` (the already-resolved title). -/
def resolvedDescription (item : RssItem) : Option String :=
  match item.description with
  | some el => el
  | none => resolvedTitle item

/-- Combined outcome of fetching and parsing the feed URL. -/
inductive FeedOutcome where
  | netError (detail : String)
  | parseError (detail : String)
  | items (xs : List RssItem)
  deriving DecidableEq

/-- One article object of the JSON response (`app.py` lines 137–143);
`none` fields serialize as JSON `null`. -/
structure Article where
  id : Nat
  title : Option String
  link : Option String
  description : Option String
  tags : List String
  deriving DecidableEq

/-- A JSON response body: either `{"error": msg}` or an array of articles. -/
inductive Body where
  | errorObj (msg : String)
  | articles (xs : List Article)
  deriving DecidableEq

/-- An HTTP response: status code and JSON body. -/
structure HttpResponse where
  status : Nat
  body : Body
  deriving DecidableEq

/-- Outbound-call log of one request: feed fetch attempts issued, and
generate-content calls issued. -/
structure Effects where
  fetchAttempts : Nat
  genCalls : Nat
  deriving DecidableEq

/-- `app.py` lines 123–131: the fixed system instruction (a Python
triple-quoted string, newlines and indentation included). -/
def system_prompt : String :=
  "\n                \x23 命令\n                提供されたニュース記事の内容を分析し、記事を最もよく表すタグを5つ程度、日本語で生成してください。\n                \x23 制約条件\n                必ず「,（カンマ）」区切りで、タグ名のみを出力してください。\n                タグには「\x23」を付けないでください。\n                \x23 出力形式例\n                テクノロジー,AI,新製品,モバイル,ニュース\n            "

/-- `app.py` line 121: the f-string prompt content built from the
resolved title and description (Python renders a `None` field as the
string `"None"`). -/
def news_content (title description : Option String) : String :=
  "記事のタイトル: " ++ pyStrOpt title ++ "\n記事の概要: " ++ pyStrOpt description

/-- `app.py` lines 113–143: processing of one feed item — resolve fields,
build the prompt, call `chat`, and assemble the article dict with `id := i`
(the `enumerate` index).  `none` propagates an exception out of `chat`;
the `Bool` records whether a generate-content call was issued. -/
def mkArticle (key : Option String) (o : GenOutcome) (i : Nat) (item : RssItem) :
    Option (Article × Bool) :=
  let title := resolvedTitle item
  let link := resolvedLink item
  let description := resolvedDescription item
  let request_prompt :=
    generate_request_prompt system_prompt (news_content title description) (0.5 : Rat) (1.0 : Rat)
  match chat key request_prompt o with
  | none => none
  | some (tags, attempted) =>
    some ({ id := i, title := title, link := link, description := description,
            tags := tags }, attempted)

/-- `app.py` lines 108–144: the enumeration loop over
`root.findall('.//item')`.  `i` is the `enumerate` index; `room` is
`15 - len(news_list)`, so `room = 0` is exactly the
`len(news_list) >= 15` break.  Returns the articles appended by the
remaining iterations and the number of generate-content calls issued,
or `none` if an iteration raises. -/
def processItems (key : Option String) (gen : Nat → GenOutcome) :
    List RssItem → Nat → Nat → Option (List Article × Nat)
  | [], _, _ => some ([], 0)
  | _ :: _, _, 0 => some ([], 0)
  | item :: rest, i, room + 1 =>
    match mkArticle key (gen i) i item with
    | none => none
    | some (a, attempted) =>
      match processItems key gen rest (i + 1) room with
      | none => none
      | some (arts, calls) => some (a :: arts, (if attempted then 1 else 0) + calls)

/-- `app.py` lines 88–157, route handler `get_news`.  The category is the
path parameter; `feed` and `gen` are the outcomes the external world would
produce for the fetch/parse and for each per-article generate-content
call.  Returns `none` if an uncaught exception escapes the handler. -/
def get_news (GEMINI_API_KEY : Option String) (category : String)
    (feed : FeedOutcome) (gen : Nat → GenOutcome) :
    Option (HttpResponse × Effects) :=
  let feed_url := RSS_FEEDS.lookup category
  if pyFalsyStr feed_url then
    some ({ status := 400, body := Body.errorObj "Invalid category" },
          { fetchAttempts := 0, genCalls := 0 })
  else
    match feed with
    | FeedOutcome.netError e =>
      some ({ status := 500, body := Body.errorObj ("Failed to fetch RSS feed: " ++ e) },
            { fetchAttempts := 1, genCalls := 0 })
    | FeedOutcome.parseError e =>
      some ({ status := 500, body := Body.errorObj ("Failed to parse RSS feed: " ++ e) },
            { fetchAttempts := 1, genCalls := 0 })
    | FeedOutcome.items xs =>
      match processItems GEMINI_API_KEY gen xs 0 15 with
      | none => none
      | some (newsList, calls) =>
        some ({ status := 200, body := Body.articles newsList },
              { fetchAttempts := 1, genCalls := calls })

/-- The tag list `chat` produces for a well-formed prompt, as a total
function of the credential and the call outcome. -/
def chatTags (key : Option String) (o : GenOutcome) : List String :=
  if pyFalsyStr key then []
  else
    match o with
    | GenOutcome.error _ => []
    | GenOutcome.text raw => parseTags raw

/-- The article the loop body assembles for item `item` at enumerate
index `i`. -/
def builtArticle (key : Option String) (o : GenOutcome) (i : Nat) (item : RssItem) : Article :=
  { id := i, title := resolvedTitle item, link := resolvedLink item,
    description := resolvedDescription item, tags := chatTags key o }

/-- Closed form of the article list `processItems` produces. -/
def specArticles (key : Option String) (gen : Nat → GenOutcome) :
    List RssItem → Nat → Nat → List Article
  | [], _, _ => []
  | _ :: _, _, 0 => []
  | item :: rest, i, room + 1 =>
    builtArticle key (gen i) i item :: specArticles key gen rest (i + 1) room

/-- Closed form of the number of generate-content calls `processItems`
issues: one per processed item when the credential is set, none otherwise. -/
def specCalls (key : Option String) (xs : List RssItem) (room : Nat) : Nat :=
  if pyFalsyStr key then 0 else min xs.length room

lemma chat_generate_request_prompt (key : Option String) (p c : String) (t tp : Rat)
    (o : GenOutcome) :
    chat key (generate_request_prompt p c t tp) o =
      some (chatTags key o, !pyFalsyStr key) := by
  unfold chat generate_request_prompt chatTags
  cases hk : pyFalsyStr key <;> cases o <;> simp [hk]

lemma mkArticle_eq (key : Option String) (o : GenOutcome) (i : Nat) (item : RssItem) :
    mkArticle key o i item = some (builtArticle key o i item, !pyFalsyStr key) := by
  unfold mkArticle builtArticle
  simp only [chat_generate_request_prompt]

lemma processItems_eq (key : Option String) (gen : Nat → GenOutcome) :
    ∀ (xs : List RssItem) (i room : Nat),
      processItems key gen xs i room =
        some (specArticles key gen xs i room, specCalls key xs room) := by
  intro xs
  induction xs with
  | nil => intro i room; simp [processItems, specArticles, specCalls]
  | cons item rest ih =>
    intro i room
    cases room with
    | zero => simp [processItems, specArticles, specCalls]
    | succ room =>
      simp only [processItems, specArticles, mkArticle_eq, ih]
      cases hk : pyFalsyStr key <;>
        simp [specCalls, hk, Nat.succ_min_succ, Nat.add_comm]

lemma specArticles_length (key : Option String) (gen : Nat → GenOutcome) :
    ∀ (xs : List RssItem) (i room : Nat),
      (specArticles key gen xs i room).length = min xs.length room := by
  intro xs
  induction xs with
  | nil => intro i room; simp [specArticles]
  | cons item rest ih =>
    intro i room
    cases room with
    | zero => simp [specArticles]
    | succ room => simp [specArticles, ih, Nat.succ_min_succ]

lemma specArticles_getq (key : Option String) (gen : Nat → GenOutcome) :
    ∀ (xs : List RssItem) (i room j : Nat), j < room →
      (specArticles key gen xs i room).get? j =
        (xs.get? j).map (fun item => builtArticle key (gen (i + j)) (i + j) item) := by
  intro xs
  induction xs with
  | nil => intro i room j hj; simp [specArticles]
  | cons item rest ih =>
    intro i room j hj
    cases room with
    | zero => exact absurd hj (Nat.not_lt_zero j)
    | succ room =>
      cases j with
      | zero => simp [specArticles]
      | succ j =>
        have hjr : j < room := Nat.lt_of_succ_lt_succ hj
        have heq : i + 1 + j = i + (j + 1) := by omega
        have h := ih (i + 1) room j hjr
        rw [heq] at h
        simpa [specArticles] using h

lemma specArticles_tags_nil (gen : Nat → GenOutcome) :
    ∀ (xs : List RssItem) (i room : Nat) (a : Article),
      a ∈ specArticles none gen xs i room → a.tags = [] := by
  intro xs
  induction xs with
  | nil => intro i room a ha; simp [specArticles] at ha
  | cons item rest ih =>
    intro i room a ha
    cases room with
    | zero => simp [specArticles] at ha
    | succ room =>
      simp only [specArticles, List.mem_cons] at ha
      cases ha with
      | inl h => subst h; simp [builtArticle, chatTags, pyFalsyStr]
      | inr h => exact ih (i + 1) room a h

lemma filterMap_strip_eq (l : List String) :
    l.filterMap (fun t => let s := pyStrip t; if s = "" then none else some s) =
      (l.map pyStrip).filter (fun s => !(s == "")) := by
  induction l with
  | nil => rfl
  | cons t rest ih =>
    by_cases h : pyStrip t = "" <;>
      simp [List.filterMap_cons, List.filter_cons, h, ih]

lemma parseTags_eq_filter (raw : String) :
    parseTags raw = ((pySplitComma raw).map pyStrip).filter (fun s => !(s == "")) := by
  unfold parseTags
  exact filterMap_strip_eq (pySplitComma raw)

lemma get_news_none_cases (category : String) (feed : FeedOutcome)
    (gen : Nat → GenOutcome) :
    ∃ resp eff, get_news none category feed gen = some (resp, eff) ∧
      eff.genCalls = 0 ∧
      ∀ arts, resp.body = Body.articles arts → ∀ a ∈ arts, a.tags = [] := by
  cases hc : pyFalsyStr (RSS_FEEDS.lookup category)
  · cases feed with
    | netError e =>
      refine ⟨{ status := 500, body := Body.errorObj ("Failed to fetch RSS feed: " ++ e) },
              { fetchAttempts := 1, genCalls := 0 }, ?_, rfl, ?_⟩
      · simp [get_news, hc]
      · intro arts harts; exact absurd harts (by simp)
    | parseError e =>
      refine ⟨{ status := 500, body := Body.errorObj ("Failed to parse RSS feed: " ++ e) },
              { fetchAttempts := 1, genCalls := 0 }, ?_, rfl, ?_⟩
      · simp [get_news, hc]
      · intro arts harts; exact absurd harts (by simp)
    | items xs =>
      refine ⟨{ status := 200, body := Body.articles (specArticles none gen xs 0 15) },
              { fetchAttempts := 1, genCalls := specCalls none xs 15 }, ?_, ?_, ?_⟩
      · simp [get_news, hc, processItems_eq]
      · simp [specCalls, pyFalsyStr]
      · intro arts harts a ha
        simp only [Body.articles.injEq] at harts
        subst harts
        exact specArticles_tags_nil gen xs 0 15 a ha
  · refine ⟨{ status := 400, body := Body.errorObj "Invalid category" },
            { fetchAttempts := 0, genCalls := 0 }, ?_, rfl, ?_⟩
    · simp [get_news, hc]
    · intro arts harts; exact absurd harts (by simp)

/-- C1: the Tag Generator never fails outward — for every credential,
category, feed outcome and family of generate-content outcomes the
handler returns a response (per-article enrichment cannot raise an
exception that fails the request), and for every prompt built by
`generate_request_prompt`, an internal error of the generate-content
call makes `chat` return the empty tag list. -/
theorem tag_generation_never_fails_outward (key : Option String)
    (category : String) (feed : FeedOutcome) (gen : Nat → GenOutcome) :
    (get_news key category feed gen).isSome = true ∧
    (∀ p c t tp e, ∃ attempted,
      chat key (generate_request_prompt p c t tp) (GenOutcome.error e) =
        some ([], attempted)) := by
  constructor
  · cases hc : pyFalsyStr (RSS_FEEDS.lookup category) <;> cases feed <;>
      simp [get_news, hc, processItems_eq]
  · intro p c t tp e
    refine ⟨!pyFalsyStr key, ?_⟩
    rw [chat_generate_request_prompt]
    cases hk : pyFalsyStr key <;> simp [chatTags, hk]

/-- C2: for a known category, the response is a 200 JSON array of
`min |xs| 15` articles (so exactly 15 with ids `0..14` when the feed
yields at least 15 items, and never more than 15), ordered by feed
appearance: the article at position `j` has `id = j` and its fields come
from the `j`-th feed item. -/
theorem response_bounded_and_ordered (key : Option String) (category : String)
    (xs : List RssItem) (gen : Nat → GenOutcome)
    (hcat : pyFalsyStr (RSS_FEEDS.lookup category) = false) :
    ∃ arts eff,
      get_news key category (FeedOutcome.items xs) gen =
        some ({ status := 200, body := Body.articles arts }, eff) ∧
      arts.length = min xs.length 15 ∧
      (15 ≤ xs.length → arts.length = 15) ∧
      (∀ j, j < arts.length →
        arts.get? j = (xs.get? j).map (fun item =>
          { id := j, title := resolvedTitle item, link := resolvedLink item,
            description := resolvedDescription item,
            tags := chatTags key (gen j) })) := by
  refine ⟨specArticles key gen xs 0 15,
          { fetchAttempts := 1, genCalls := specCalls key xs 15 }, ?_, ?_, ?_, ?_⟩
  · simp [get_news, hcat, processItems_eq]
  · exact specArticles_length key gen xs 0 15
  · intro hlong
    rw [specArticles_length key gen xs 0 15]
    omega
  · intro j hj
    have hlen := specArticles_length key gen xs 0 15
    rw [hlen] at hj
    have hj15 : j < 15 := by omega
    have hgq := specArticles_getq key gen xs 0 15 j hj15
    simpa [builtArticle] using hgq

theorem response_bounded_and_ordered_witness :
    pyFalsyStr (RSS_FEEDS.lookup "テクノロジー") = false ∧
    (∃ arts eff,
      get_news none "テクノロジー" (FeedOutcome.items []) (fun _ => GenOutcome.error "e") =
        some ({ status := 200, body := Body.articles arts }, eff) ∧
      arts.length = min ([] : List RssItem).length 15 ∧
      (15 ≤ ([] : List RssItem).length → arts.length = 15) ∧
      (∀ j, j < arts.length →
        arts.get? j = (([] : List RssItem).get? j).map (fun item =>
          { id := j, title := resolvedTitle item, link := resolvedLink item,
            description := resolvedDescription item,
            tags := chatTags none (GenOutcome.error "e") }))) :=
  ⟨by decide,
   response_bounded_and_ordered none "テクノロジー" [] (fun _ => GenOutcome.error "e")
     (by decide)⟩

/-- C3: when `GEMINI_API_KEY` is unset (`None`), `chat` returns the empty
tag list with no network call for every prompt and outcome, the handler
issues zero generate-content calls, and every returned article has
`tags = []`. -/
theorem missing_credential_no_call (category : String) (feed : FeedOutcome)
    (gen : Nat → GenOutcome) (resp : HttpResponse) (eff : Effects)
    (h : get_news none category feed gen = some (resp, eff)) :
    eff.genCalls = 0 ∧
    (∀ rp o, chat none rp o = some ([], false)) ∧
    (∀ arts, resp.body = Body.articles arts → ∀ a ∈ arts, a.tags = []) := by
  obtain ⟨resp2, eff2, heq, hcalls, htags⟩ := get_news_none_cases category feed gen
  rw [h] at heq
  simp only [Option.some.injEq, Prod.mk.injEq] at heq
  obtain ⟨h1, h2⟩ := heq
  subst h1
  subst h2
  exact ⟨hcalls, fun rp o => rfl, htags⟩

theorem missing_credential_no_call_witness :
    get_news none "テクノロジー" (FeedOutcome.items [⟨none, none, none⟩])
        (fun _ => GenOutcome.text "a,b") =
      some ({ status := 200,
              body := Body.articles
                [{ id := 0, title := some "No Title", link := some "#",
                   description := some "No Title", tags := [] }] },
            { fetchAttempts := 1, genCalls := 0 }) ∧
    (({ fetchAttempts := 1, genCalls := 0 } : Effects).genCalls = 0 ∧
      (∀ rp o, chat none rp o = some ([], false)) ∧
      (∀ arts,
        ({ status := 200,
           body := Body.articles
             [{ id := 0, title := some "No Title", link := some "#",
                description := some "No Title", tags := [] }] } : HttpResponse).body =
          Body.articles arts → ∀ a ∈ arts, a.tags = [])) :=
  ⟨by decide,
   missing_credential_no_call "テクノロジー" (FeedOutcome.items [⟨none, none, none⟩])
     (fun _ => GenOutcome.text "a,b") _ _ (by decide)⟩

/-- C4: per feed item, an absent `title` element yields the literal
`"No Title"`, an absent `link` element yields the literal `"#"`, and an
absent `description` element yields the (resolved) title. -/
theorem absent_element_fallbacks (item : RssItem) :
    (item.title = none → resolvedTitle item = some "No Title") ∧
    (item.link = none → resolvedLink item = some "#") ∧
    (item.description = none → resolvedDescription item = resolvedTitle item) := by
  refine ⟨?_, ?_, ?_⟩
  · intro h; simp [resolvedTitle, h]
  · intro h; simp [resolvedLink, h]
  · intro h; simp [resolvedDescription, h]

theorem absent_element_fallbacks_witness :
    resolvedTitle ⟨none, none, none⟩ = some "No Title" ∧
    resolvedLink ⟨none, none, none⟩ = some "#" ∧
    resolvedDescription ⟨none, none, none⟩ = resolvedTitle ⟨none, none, none⟩ :=
  ⟨(absent_element_fallbacks ⟨none, none, none⟩).1 rfl,
   (absent_element_fallbacks ⟨none, none, none⟩).2.1 rfl,
   (absent_element_fallbacks ⟨none, none, none⟩).2.2 rfl⟩

/-- C5: tag parsing splits the raw response on commas, trims each piece,
drops empty pieces and preserves order: the parsed list is a sublist of
the stripped pieces in order, membership is exactly "the strip of some
comma piece, nonempty", and the concrete response
`"テクノロジー, AI ,新製品,"` yields `["テクノロジー", "AI", "新製品"]`. -/
theorem tag_parsing_contract :
    parseTags "テクノロジー, AI ,新製品," = ["テクノロジー", "AI", "新製品"] ∧
    (∀ raw, List.Sublist (parseTags raw) ((pySplitComma raw).map pyStrip)) ∧
    (∀ raw t, t ∈ parseTags raw ↔
      ((∃ u, u ∈ pySplitComma raw ∧ pyStrip u = t) ∧ t ≠ "")) := by
  refine ⟨by decide, ?_, ?_⟩
  · intro raw
    rw [parseTags_eq_filter]
    exact List.filter_sublist _
  · intro raw t
    rw [parseTags_eq_filter]
    simp only [List.mem_filter, List.mem_map, Bool.not_eq_eq_eq_not, Bool.not_true,
      beq_eq_false_iff_ne, ne_eq]

/-- C6: a category absent from the registry (exact string match) yields a
400 response with body `{"error": "Invalid category"}` and no feed fetch
is attempted. -/
theorem unknown_category_rejected (key : Option String) (category : String)
    (feed : FeedOutcome) (gen : Nat → GenOutcome)
    (h : RSS_FEEDS.lookup category = none) :
    get_news key category feed gen =
      some ({ status := 400, body := Body.errorObj "Invalid category" },
            { fetchAttempts := 0, genCalls := 0 }) := by
  simp [get_news, h, pyFalsyStr]

theorem unknown_category_rejected_witness :
    RSS_FEEDS.lookup "foo" = none ∧
    get_news none "foo" (FeedOutcome.items []) (fun _ => GenOutcome.error "e") =
      some ({ status := 400, body := Body.errorObj "Invalid category" },
            { fetchAttempts := 0, genCalls := 0 }) :=
  ⟨by decide,
   unknown_category_rejected none "foo" (FeedOutcome.items [])
     (fun _ => GenOutcome.error "e") (by decide)⟩

/-- C7: for a known category, a feed-fetch failure produces a 500
response with body `{"error": "Failed to fetch RSS feed: <detail>"}`, an
XML parse failure produces a 500 response with body
`{"error": "Failed to parse RSS feed: <detail>"}`, and in every outcome
exactly one fetch attempt is issued (no retries). -/
theorem feed_failure_responses (key : Option String) (category : String)
    (gen : Nat → GenOutcome) (e : String)
    (h : pyFalsyStr (RSS_FEEDS.lookup category) = false) :
    get_news key category (FeedOutcome.netError e) gen =
      some ({ status := 500, body := Body.errorObj ("Failed to fetch RSS feed: " ++ e) },
            { fetchAttempts := 1, genCalls := 0 }) ∧
    get_news key category (FeedOutcome.parseError e) gen =
      some ({ status := 500, body := Body.errorObj ("Failed to parse RSS feed: " ++ e) },
            { fetchAttempts := 1, genCalls := 0 }) ∧
    (∀ feed resp eff, get_news key category feed gen = some (resp, eff) →
      eff.fetchAttempts = 1) := by
  refine ⟨by simp [get_news, h], by simp [get_news, h], ?_⟩
  intro feed resp eff hh
  cases feed with
  | netError e2 =>
    simp only [get_news, h, Bool.false_eq_true, if_false, Option.some.injEq,
      Prod.mk.injEq] at hh
    obtain ⟨h1, h2⟩ := hh
    subst h2; rfl
  | parseError e2 =>
    simp only [get_news, h, Bool.false_eq_true, if_false, Option.some.injEq,
      Prod.mk.injEq] at hh
    obtain ⟨h1, h2⟩ := hh
    subst h2; rfl
  | items xs =>
    simp only [get_news, h, Bool.false_eq_true, if_false, processItems_eq,
      Option.some.injEq, Prod.mk.injEq] at hh
    obtain ⟨h1, h2⟩ := hh
    subst h2; rfl

theorem feed_failure_responses_witness :
    pyFalsyStr (RSS_FEEDS.lookup "テクノロジー") = false ∧
    (get_news none "テクノロジー" (FeedOutcome.netError "boom") (fun _ => GenOutcome.error "g") =
        some ({ status := 500, body := Body.errorObj ("Failed to fetch RSS feed: " ++ "boom") },
              { fetchAttempts := 1, genCalls := 0 }) ∧
      get_news none "テクノロジー" (FeedOutcome.parseError "boom") (fun _ => GenOutcome.error "g") =
        some ({ status := 500, body := Body.errorObj ("Failed to parse RSS feed: " ++ "boom") },
              { fetchAttempts := 1, genCalls := 0 }) ∧
      (∀ feed resp eff,
        get_news none "テクノロジー" feed (fun _ => GenOutcome.error "g") = some (resp, eff) →
          eff.fetchAttempts = 1)) :=
  ⟨by decide,
   feed_failure_responses none "テクノロジー" (fun _ => GenOutcome.error "g") "boom"
     (by decide)⟩

/-- C8: once the feed is fetched and parsed, the handler responds 200
with the article array however short it is — in particular an empty item
list still yields a 200 with an empty array, never an error. -/
theorem success_despite_shortfall (key : Option String) (category : String)
    (xs : List RssItem) (gen : Nat → GenOutcome)
    (h : pyFalsyStr (RSS_FEEDS.lookup category) = false) :
    ∃ arts calls,
      get_news key category (FeedOutcome.items xs) gen =
        some ({ status := 200, body := Body.articles arts },
              { fetchAttempts := 1, genCalls := calls }) ∧
      (xs = [] → arts = []) := by
  refine ⟨specArticles key gen xs 0 15, specCalls key xs 15, ?_, ?_⟩
  · simp [get_news, h, processItems_eq]
  · intro hxs; subst hxs; rfl

theorem success_despite_shortfall_witness :
    pyFalsyStr (RSS_FEEDS.lookup "テクノロジー") = false ∧
    (∃ arts calls,
      get_news none "テクノロジー" (FeedOutcome.items []) (fun _ => GenOutcome.error "g") =
        some ({ status := 200, body := Body.articles arts },
              { fetchAttempts := 1, genCalls := calls }) ∧
      (([] : List RssItem) = [] → arts = [])) :=
  ⟨by decide,
   success_despite_shortfall none "テクノロジー" [] (fun _ => GenOutcome.error "g")
     (by decide)⟩

/-- C9: a present-but-textless element is not replaced by a fallback: if
the `title` element exists with no text, the article's title is `none`
(JSON `null`), not `"No Title"`; likewise for `link` and `description`. -/
theorem present_empty_element_is_null (item : RssItem) :
    (item.title = some none → resolvedTitle item = none) ∧
    (item.link = some none → resolvedLink item = none) ∧
    (item.description = some none → resolvedDescription item = none) := by
  refine ⟨?_, ?_, ?_⟩
  · intro h; simp [resolvedTitle, h]
  · intro h; simp [resolvedLink, h]
  · intro h; simp [resolvedDescription, h]

theorem present_empty_element_is_null_witness :
    resolvedTitle ⟨some none, some none, some none⟩ = none ∧
    resolvedLink ⟨some none, some none, some none⟩ = none ∧
    resolvedDescription ⟨some none, some none, some none⟩ = none :=
  ⟨(present_empty_element_is_null ⟨some none, some none, some none⟩).1 rfl,
   (present_empty_element_is_null ⟨some none, some none, some none⟩).2.1 rfl,
   (present_empty_element_is_null ⟨some none, some none, some none⟩).2.2 rfl⟩

/-- C10: when both the `title` and `description` elements are absent, the
description falls back to the already-resolved title, i.e. the literal
`"No Title"`. -/
theorem missing_title_and_description_fallback (item : RssItem)
    (ht : item.title = none) (hd : item.description = none) :
    resolvedDescription item = some "No Title" ∧
    resolvedDescription item = resolvedTitle item := by
  constructor
  · simp [resolvedDescription, hd, resolvedTitle, ht]
  · simp [resolvedDescription, hd]

theorem missing_title_and_description_fallback_witness :
    resolvedDescription ⟨none, some (some "L"), none⟩ = some "No Title" ∧
    resolvedDescription ⟨none, some (some "L"), none⟩ =
      resolvedTitle ⟨none, some (some "L"), none⟩ :=
  missing_title_and_description_fallback ⟨none, some (some "L"), none⟩ rfl rfl
